import Mathlib

/-!
# Verification of the cordfish gateway shard

A shallow embedding of `src/gateway/shard.ts` and `src/gateway/types.ts`:
the per-shard Discord gateway state machine (connection lifecycle,
heartbeating, identify/resume decisioning, close-code policy, sequence
tracking).  Stateful methods of the `Shard` class become pure functions
`Shard → Shard × List Output`, where `Output` records the externally
visible effects (frames sent on the socket, socket close calls, transport
connect calls, and frames forwarded to the consumer) in the order the
source performs them.  JavaScript truthiness tests on nullable fields
(`!this.#seq`, `!this.#session`, `this.#resumeUrl`) are modelled exactly:
`0` and the empty string are falsy.  `Date.now()` becomes an explicit
`now` parameter; `Math.random()` becomes an explicit rational draw.
-/

namespace Cordfish

/-- `ShardWebSocketCloseCodes.zombieConnection` from `types.ts`. -/
def ShardWebSocketCloseCodes.zombieConnection : Nat := 3000

/-- Modelled from the spec: `shard.ts`'s close handler references the fatal
close-code members `InvalidShard`, `ShardingRequired`, `AuthenticationFailed`,
`InvalidIntents`, `InvalidApiVersion`, `DisallowedIntents` of
`ShardWebSocketCloseCodes`, which are missing from the `types.ts` in `src/`
(only `zombieConnection` is present there; the spec, section 4.3 and 6,
names the fatal subset).  The numeric values are the Discord gateway close
codes these names denote. -/
def ShardWebSocketCloseCodes.InvalidShard : Nat := 4010

/-- Modelled from the spec: see `ShardWebSocketCloseCodes.InvalidShard`. -/
def ShardWebSocketCloseCodes.ShardingRequired : Nat := 4011

/-- Modelled from the spec: see `ShardWebSocketCloseCodes.InvalidShard`. -/
def ShardWebSocketCloseCodes.AuthenticationFailed : Nat := 4004

/-- Modelled from the spec: see `ShardWebSocketCloseCodes.InvalidShard`. -/
def ShardWebSocketCloseCodes.InvalidIntents : Nat := 4013

/-- Modelled from the spec: see `ShardWebSocketCloseCodes.InvalidShard`. -/
def ShardWebSocketCloseCodes.InvalidApiVersion : Nat := 4012

/-- Modelled from the spec: see `ShardWebSocketCloseCodes.InvalidShard`. -/
def ShardWebSocketCloseCodes.DisallowedIntents : Nat := 4014

/-- Modelled from the spec: the implementation-defined reconnect-requested
self-close code the spec's section 6 mentions ("one reconnect-requested
self-close code"), referenced by `shard.ts` but missing from `src/`'s
`types.ts`.  Any value outside the fatal set and distinct from the other
codes works; the proofs below only use that it is not fatal. -/
def ShardWebSocketCloseCodes.reconnectRequested : Nat := 3024

/-- Modelled from the spec: the standard WebSocket normal-closure code
(referenced by `shard.ts` as `ShardWebSocketCloseCodes.NormalClosure`,
missing from `src/`'s `types.ts`). -/
def ShardWebSocketCloseCodes.NormalClosure : Nat := 1000

/-- Modelled from the spec: the `ShardConnectionState` enum is imported by
`shard.ts` from `types.ts` but absent from the `types.ts` in `src/`; the
spec's section 3 lists its values: NotConnected, Connecting, Connected,
Resuming. -/
inductive ShardConnectionState where
  | NotConnected
  | Connecting
  | Connected
  | Resuming
  deriving DecidableEq

/-- `ShardHeatbeat` from `shard.ts` (the source spells "heartbeat" as
"heatbeat"; we keep its names). -/
structure ShardHeatbeat where
  ack : Bool
  ping : Int
  lastHeatbeat : Int
  deriving DecidableEq

/-- `ShardOptions` from `shard.ts`, with the nested `properties` object
flattened into the three fields the code reads. -/
structure ShardOptions where
  token : String
  id : Nat
  intents : Nat
  os : String
  browser : String
  device : String
  url : String
  totalShards : Nat
  deriving DecidableEq

/-- The fields of a dispatch frame's `d` payload that the shard reads
(only the "READY" handler reads any: `session_id` and
`resume_gateway_url`). -/
structure DispatchPayload where
  session_id : String
  resume_gateway_url : String
  deriving DecidableEq

/-- An inbound `DiscordGatewayMessage`, split by the opcode cases
`gatewayMessageIsOfType` distinguishes.  `dispatch` is opcode 0 and carries
the event name `t` and sequence `s`; `other` stands for any opcode the
switch in `#handleMessage` does not handle. -/
inductive GatewayMessage where
  | dispatch (t : String) (s : Int) (d : DispatchPayload)
  | heatbeat (d : Option Int)
  | heatbeatACK
  | reconnect
  | invalidSession (d : Bool)
  | hello (heartbeat_interval : Nat)
  | other (op : Nat)
  deriving DecidableEq

/-- An outbound frame built by `send` calls in `shard.ts` (the `s` and `t`
fields are omitted on sends, as in the source's `Omit<..., "s" | "t">`). -/
inductive SendPayload where
  | heatbeat (d : Option Int)
  | identify (token os browser device : String) (shardId totalShards intents : Nat)
  | resume (token session_id : String) (seq : Int)
  deriving DecidableEq

/-- Externally visible effects of a shard method, in program order:
`send` is `this.#socket.send(...)`, `closeSocket` is
`this.#socket.close(code)`, `connectTo` is the `new WebSocket(url)` opened
by `connect()` (carrying the chosen URL before the fixed
`v=10&encoding=json` query parameters), `forward` is the trailing
`this.onmessage(message)` call. -/
inductive Output where
  | send (p : SendPayload)
  | closeSocket (code : Option Nat)
  | connectTo (url : String)
  | forward (m : GatewayMessage)
  deriving DecidableEq

/-- The shard's `setTimeout`/`setInterval` handle `#heatbeatTimeout`:
cleared, armed as the one-shot first-beat timer, or as the recurring
heartbeat timer. -/
inductive TimerState where
  | off
  | oneShot (interval : Nat)
  | recurring (interval : Nat)
  deriving DecidableEq

/-- The mutable fields of the `Shard` class.  `socket` records whether
`this.#socket` is set (`true`) or `undefined` (`false`). -/
structure Shard where
  socket : Bool
  resumeUrl : Option String
  session : Option String
  seq : Option Int
  heatbeatTimeout : TimerState
  heatbeat : ShardHeatbeat
  state : ShardConnectionState
  deriving DecidableEq

/-- The field initializers of the `Shard` class. -/
def Shard.initial : Shard where
  socket := false
  resumeUrl := none
  session := none
  seq := none
  heatbeatTimeout := .off
  heatbeat := { ack := true, ping := -1, lastHeatbeat := -1 }
  state := .NotConnected

/-- JavaScript truthiness of `number | null`: `null` and `0` are falsy. -/
def truthyNum : Option Int → Bool
  | none => false
  | some n => n != 0

/-- JavaScript truthiness of `string | null`: `null` and `""` are falsy. -/
def truthyStr : Option String → Bool
  | none => false
  | some s => s != ""

/-- The `send` method: `this.#socket?.send(JSON.stringify(message))` — a
no-op when the socket is `undefined`. -/
def Shard.send (st : Shard) (p : SendPayload) : List Output :=
  if st.socket then [Output.send p] else []

/-- The `close(code?)` method: `this.#socket?.close(code)` then
`this.#socket = undefined`. -/
def Shard.close (st : Shard) (code : Option Nat) : Shard × List Output :=
  ({ st with socket := false }, if st.socket then [Output.closeSocket code] else [])

/-- The URL chosen by `connect()`:
`this.state === Resuming && this.#resumeUrl ? this.#resumeUrl : this.#options.url`. -/
def connectUrl (opts : ShardOptions) (st : Shard) : String :=
  match st.resumeUrl with
  | some u => if st.state = .Resuming ∧ u ≠ "" then u else opts.url
  | none => opts.url

/-- The `connect()` method: open a transport to the chosen URL and install
the handlers; the returned promise resolves on transport open. -/
def Shard.connect (opts : ShardOptions) (st : Shard) : Shard × List Output :=
  ({ st with socket := true }, [Output.connectTo (connectUrl opts st)])

/-- The identify frame built by `#identify`. -/
def identifyPayload (opts : ShardOptions) : SendPayload :=
  .identify ("Bot " ++ opts.token) opts.os opts.browser opts.device
    opts.id opts.totalShards opts.intents

/-- The `#identify` method: send the identify frame.  It mutates no field. -/
def Shard.identify (opts : ShardOptions) (st : Shard) : Shard × List Output :=
  (st, st.send (identifyPayload opts))

/-- The `#resume` method: `if (!this.#seq || !this.#session)` fall back to
`#identify`, else send the resume frame. -/
def Shard.resume (opts : ShardOptions) (st : Shard) : Shard × List Output :=
  if ¬ truthyNum st.seq ∨ ¬ truthyStr st.session then
    st.identify opts
  else
    (st, st.send (.resume ("Bot " ++ opts.token) (st.session.getD "") (st.seq.getD 0)))

/-- The first-heartbeat delay `Math.ceil(interval * (Math.random() || 0.5))`
computed by `#startHeatbeat`, with the random draw `q ∈ [0,1)` explicit. -/
def jitter (interval : Nat) (q : ℚ) : ℤ :=
  Int.ceil ((interval : ℚ) * (if q = 0 then 1/2 else q))

/-- The state effect of `#startHeatbeat`: clear the old timer handle and
arm the one-shot first-beat timer (its delay is `jitter`; the trace
semantics below fires timers by event, not by clock). -/
def Shard.startHeatbeat (st : Shard) (interval : Nat) : Shard :=
  { st with heatbeatTimeout := .oneShot interval }

/-- The body of the `setTimeout` callback in `#startHeatbeat`: send a
heartbeat carrying the stored sequence, set `ack := false`, record
`lastHeatbeat := now`, and arm the recurring timer at `interval`. -/
def Shard.firstBeat (st : Shard) (now : Int) : Shard × List Output :=
  match st.heatbeatTimeout with
  | .oneShot interval =>
      ({ st with
          heatbeat := { st.heatbeat with ack := false, lastHeatbeat := now }
          heatbeatTimeout := .recurring interval },
        st.send (.heatbeat st.seq))
  | _ => (st, [])

/-- The body of the `setInterval` callback in `#startHeatbeat`: if the last
heartbeat was not acknowledged, close the transport with the zombie code
and stop the timer; otherwise send the next heartbeat and reset
`ack`/`lastHeatbeat`. -/
def Shard.recurringTick (st : Shard) (now : Int) : Shard × List Output :=
  if st.heatbeat.ack = false then
    let c := st.close (some ShardWebSocketCloseCodes.zombieConnection)
    ({ c.1 with heatbeatTimeout := .off }, c.2)
  else
    ({ st with heatbeat := { st.heatbeat with ack := false, lastHeatbeat := now } },
      st.send (.heatbeat st.seq))

/-- The `#handleMessage` method: route the decoded frame through the
internal-handler switch, then unconditionally store the sequence of a
dispatch-class frame, then forward the frame to `onmessage`. -/
def Shard.handleMessage (opts : ShardOptions) (st : Shard) (now : Int)
    (msg : GatewayMessage) : Shard × List Output :=
  let handled : Shard × List Output :=
    match msg with
    | .hello interval =>
        let sth := st.startHeatbeat interval
        if sth.state = .Resuming then sth.resume opts else sth.identify opts
    | .heatbeat _ =>
        ({ st with heatbeat := { st.heatbeat with lastHeatbeat := now } },
          st.send (.heatbeat st.seq))
    | .heatbeatACK =>
        ({ st with heatbeat :=
            { st.heatbeat with ack := true, ping := now - st.heatbeat.lastHeatbeat } }, [])
    | .reconnect => st.close (some ShardWebSocketCloseCodes.reconnectRequested)
    | .invalidSession d =>
        if d then st.close (some ShardWebSocketCloseCodes.reconnectRequested)
        else st.close (some ShardWebSocketCloseCodes.NormalClosure)
    | .dispatch t _ d =>
        if t = "RESUMED" then ({ st with state := .Connected }, [])
        else if t = "READY" then
          ({ st with
              resumeUrl := some d.resume_gateway_url
              session := some d.session_id
              state := .Connected }, [])
        else (st, [])
    | .other _ => (st, [])
  let tracked : Shard :=
    match msg with
    | .dispatch _ s _ => { handled.1 with seq := some s }
    | _ => handled.1
  (tracked, handled.2 ++ [Output.forward msg])

/-- The list of fatal close codes enumerated by the `case` labels of
`#handleClose`. -/
def fatalCloseCodes : List Nat :=
  [ShardWebSocketCloseCodes.InvalidShard,
    ShardWebSocketCloseCodes.ShardingRequired,
    ShardWebSocketCloseCodes.AuthenticationFailed,
    ShardWebSocketCloseCodes.InvalidIntents,
    ShardWebSocketCloseCodes.InvalidApiVersion,
    ShardWebSocketCloseCodes.DisallowedIntents]

/-- The `#handleClose` method: drop the socket handle, clear the heartbeat
timer, then classify the close code — a fatal code sets
`state := NotConnected` and stops; every other code toggles the state
(`Resuming ↦ NotConnected`, anything else `↦ Resuming`) and calls
`connect()`. -/
def Shard.handleClose (opts : ShardOptions) (st : Shard) (code : Nat) :
    Shard × List Output :=
  let st0 : Shard := { st with socket := false, heatbeatTimeout := .off }
  if code ∈ fatalCloseCodes then
    ({ st0 with state := .NotConnected }, [])
  else
    let st1 : Shard := { st0 with
      state := if st0.state = .Resuming then .NotConnected else .Resuming }
    st1.connect opts

/-- One event of the shard's single-threaded event loop: an orchestrator
`connect()` call, an inbound decoded frame, a firing of whichever heartbeat
timer is armed, or a transport close event. -/
inductive Ev where
  | connectCall
  | recv (now : Int) (msg : GatewayMessage)
  | timerFires (now : Int)
  | closeEvent (code : Nat)
  deriving DecidableEq

/-- One step of the shard event loop. -/
def Shard.step (opts : ShardOptions) (st : Shard) (ev : Ev) : Shard × List Output :=
  match ev with
  | .connectCall => st.connect opts
  | .recv now msg => st.handleMessage opts now msg
  | .timerFires now =>
      match st.heatbeatTimeout with
      | .oneShot _ => st.firstBeat now
      | .recurring _ => st.recurringTick now
      | .off => (st, [])
  | .closeEvent code => st.handleClose opts code

/-- Run a list of events from a state, keeping only the final state. -/
def Shard.run (opts : ShardOptions) (st : Shard) : List Ev → Shard
  | [] => st
  | ev :: evs => Shard.run opts (st.step opts ev).1 evs

/-- Process a list of inbound frames through `#handleMessage`
(`now` fixed: the wall clock never feeds back into routing). -/
def Shard.processMessages (opts : ShardOptions) (now : Int) (st : Shard) :
    List GatewayMessage → Shard
  | [] => st
  | m :: ms => Shard.processMessages opts now (st.handleMessage opts now m).1 ms

/-- The sequence number of the last dispatch-class frame of a list, if any. -/
def lastDispatchSeq : List GatewayMessage → Option Int
  | [] => none
  | m :: ms =>
      match lastDispatchSeq ms with
      | some s => some s
      | none =>
          match m with
          | .dispatch _ s _ => some s
          | _ => none

/-- Does an output list contain a resume-frame send? -/
def sentResume (outs : List Output) : Bool :=
  outs.any fun o =>
    match o with
    | .send (.resume _ _ _) => true
    | _ => false

/-- Does an output list contain an identify-frame send? -/
def sentIdentify (outs : List Output) : Bool :=
  outs.any fun o =>
    match o with
    | .send (.identify _ _ _ _ _ _ _) => true
    | _ => false

/-- Does an output list contain a heartbeat-frame send? -/
def sentHeatbeat (outs : List Output) : Bool :=
  outs.any fun o =>
    match o with
    | .send (.heatbeat _) => true
    | _ => false

/-- Does an output list contain a `connect()` call? -/
def calledConnect (outs : List Output) : Bool :=
  outs.any fun o =>
    match o with
    | .connectTo _ => true
    | _ => false

/-! ## Concrete fixtures used by witnesses and counterexamples -/

/-- A concrete shard configuration. -/
def opts0 : ShardOptions where
  token := "tok0"
  id := 0
  intents := 513
  os := "linux"
  browser := "cordfish"
  device := "cordfish"
  url := "wss://gateway.discord.gg"
  totalShards := 1

/-- A dispatch payload whose fields are never read. -/
def dp0 : DispatchPayload where
  session_id := ""
  resume_gateway_url := ""

/-- A connected shard with a stored resume URL. -/
def stConnected : Shard :=
  { Shard.initial with
      socket := true
      resumeUrl := some "wss://resume.example"
      state := .Connected }

/-- A shard in `Resuming` state whose stored sequence is `0` (present but
falsy) and whose session id is present. -/
def stSeqZero : Shard :=
  { Shard.initial with
      socket := true
      session := some "sess"
      seq := some 0
      state := .Resuming }

/-- A shard holding a full prior session (used to watch what a fresh
identify does to the stored fields). -/
def stFullSession : Shard :=
  { Shard.initial with
      socket := true
      session := some "x"
      resumeUrl := some "u"
      seq := some 7 }

/-- A shard at a recurring heartbeat tick with the last heartbeat
unacknowledged. -/
def stZombie : Shard :=
  { Shard.initial with
      socket := true
      heatbeatTimeout := .recurring 100
      heatbeat := { ack := false, ping := -1, lastHeatbeat := 5 } }

/-- A freshly connected shard (for ticks whose heartbeat was
acknowledged). -/
def stAcked : Shard :=
  { Shard.initial with
      socket := true
      heatbeatTimeout := .recurring 100 }

/-- Orchestrator connects, the gateway says hello, the first-beat timer
fires: a real execution prefix of the shard event loop. -/
def trOutstanding : List Ev := [.connectCall, .recv 0 (.hello 100), .timerFires 1]

/-- The state reached by `trOutstanding`: one heartbeat sent and not yet
acknowledged. -/
def stOutstanding : Shard := Shard.run opts0 Shard.initial trOutstanding

/-- Three inbound frames: two dispatch frames around an internally handled
heartbeat-request frame. -/
def msgsSeq : List GatewayMessage :=
  [.dispatch "A" 5 dp0, .heatbeat none, .dispatch "B" 9 dp0]

/-! ## Claims -/

/-- C1: for every transport close event whose code is in the fatal set
(invalid shard count, sharding required, authentication failed, disallowed
intents, invalid intents, invalid API version), the close handler sets
`ConnectionState` to `NotConnected` and does not invoke `connect()`
again. -/
theorem C1_fatal_close_terminal (opts : ShardOptions) (st : Shard) (code : Nat)
    (h : code ∈ fatalCloseCodes) :
    (st.handleClose opts code).1.state = .NotConnected ∧
      calledConnect (st.handleClose opts code).2 = false := by
  simp [Shard.handleClose, h, calledConnect]

/-- C1 witness: closing with the authentication-failed code from the
initial state. -/
theorem C1_witness :
    ShardWebSocketCloseCodes.AuthenticationFailed ∈ fatalCloseCodes ∧
      ((Shard.initial.handleClose opts0
          ShardWebSocketCloseCodes.AuthenticationFailed).1.state = .NotConnected ∧
        calledConnect (Shard.initial.handleClose opts0
          ShardWebSocketCloseCodes.AuthenticationFailed).2 = false) :=
  ⟨by decide, C1_fatal_close_terminal opts0 Shard.initial _ (by decide)⟩

/-- C2: for every transport close event whose code is not in the fatal set,
the close handler invokes `connect()` exactly once; a prior state other
than `Resuming` becomes `Resuming` (and `connect()` then uses the stored
resume URL when one is known, i.e. stored and non-empty), while a prior
`Resuming` state becomes `NotConnected` so the next session attempt
identifies freshly. -/
theorem C2_retryable_close_reconnects (opts : ShardOptions) (st : Shard) (code : Nat)
    (h : code ∉ fatalCloseCodes) :
    ∃ u, (st.handleClose opts code).2 = [Output.connectTo u] ∧
      (st.handleClose opts code).1.state =
        (if st.state = .Resuming then .NotConnected else .Resuming) ∧
      (st.state ≠ .Resuming → ∀ v, st.resumeUrl = some v → v ≠ "" → u = v) := by
  have h' : ¬ (code ∈ fatalCloseCodes) := h
  simp only [Shard.handleClose, Shard.connect, if_neg h']
  refine ⟨_, rfl, by simp, ?_⟩
  intro hns v hv hne
  simp [connectUrl, hv, hns, hne]

/-- C2 witness: an unrecognized close code `4000` on a connected shard with
a stored resume URL. -/
theorem C2_witness :
    (4000 : Nat) ∉ fatalCloseCodes ∧
      ∃ u, (stConnected.handleClose opts0 4000).2 = [Output.connectTo u] ∧
        (stConnected.handleClose opts0 4000).1.state =
          (if stConnected.state = .Resuming then .NotConnected else .Resuming) ∧
        (stConnected.state ≠ .Resuming →
          ∀ v, stConnected.resumeUrl = some v → v ≠ "" → u = v) :=
  ⟨by decide, C2_retryable_close_reconnects opts0 stConnected 4000 (by decide)⟩

/-- C7: for every positive heartbeat interval and every random draw in
`[0,1)`, the first-heartbeat delay `jitter` is strictly positive and at
most the interval; a draw of exactly `0` is replaced by the factor `1/2`
and still yields a positive delay. -/
theorem C7_jitter_bounds (interval : Nat) (q : ℚ) (h0 : 0 < interval)
    (hq0 : 0 ≤ q) (hq1 : q < 1) :
    0 < jitter interval q ∧ jitter interval q ≤ (interval : ℤ) := by
  unfold jitter
  have hi : (0 : ℚ) < (interval : ℚ) := by exact_mod_cast h0
  by_cases hq : q = 0
  · constructor
    · rw [Int.ceil_pos]
      simp only [hq, if_pos rfl]
      exact mul_pos hi (by norm_num)
    · rw [Int.ceil_le]
      simp only [hq, if_pos rfl]
      push_cast
      nlinarith
  · constructor
    · rw [Int.ceil_pos]
      simp only [if_neg hq]
      exact mul_pos hi (lt_of_le_of_ne hq0 (Ne.symm hq))
    · rw [Int.ceil_le]
      simp only [if_neg hq]
      push_cast
      nlinarith

/-- C7 witness: interval `100` with a random draw of exactly `0`. -/
theorem C7_witness :
    (0 < 100 ∧ (0 : ℚ) ≤ 0 ∧ (0 : ℚ) < 1) ∧
      (0 < jitter 100 0 ∧ jitter 100 0 ≤ (100 : ℤ)) :=
  ⟨⟨by decide, by norm_num, by norm_num⟩,
    C7_jitter_bounds 100 0 (by decide) (by norm_num) (by norm_num)⟩

/-- C8: at every recurring heartbeat tick at which `ack` is still false,
the transport is closed with the dedicated zombie close code, the recurring
timer is stopped, and no heartbeat frame is sent on that tick. -/
theorem C8_zombie_tick (st : Shard) (now : Int)
    (hack : st.heatbeat.ack = false) (hsock : st.socket = true) :
    (st.recurringTick now).2 =
        [Output.closeSocket (some ShardWebSocketCloseCodes.zombieConnection)] ∧
      (st.recurringTick now).1.heatbeatTimeout = .off ∧
      sentHeatbeat (st.recurringTick now).2 = false := by
  simp [Shard.recurringTick, hack, Shard.close, hsock, sentHeatbeat]

/-- C8 witness: a live shard whose last heartbeat was never acknowledged. -/
theorem C8_witness :
    (stZombie.heatbeat.ack = false ∧ stZombie.socket = true) ∧
      ((stZombie.recurringTick 10).2 =
          [Output.closeSocket (some ShardWebSocketCloseCodes.zombieConnection)] ∧
        (stZombie.recurringTick 10).1.heatbeatTimeout = .off ∧
        sentHeatbeat (stZombie.recurringTick 10).2 = false) :=
  ⟨⟨by decide, by decide⟩, C8_zombie_tick stZombie 10 (by decide) (by decide)⟩

/-- Whether a frame is dispatch-class (opcode 0). -/
def isDispatch : GatewayMessage → Bool
  | .dispatch _ _ _ => true
  | _ => false

/-- No internal handler touches the stored sequence: `#handleMessage`
leaves `#seq` unchanged on every non-dispatch frame. -/
theorem handleMessage_seq_of_not_dispatch (opts : ShardOptions) (st : Shard)
    (now : Int) (msg : GatewayMessage) (h : isDispatch msg = false) :
    (st.handleMessage opts now msg).1.seq = st.seq := by
  cases msg with
  | dispatch t s d => simp [isDispatch] at h
  | hello i =>
    simp only [Shard.handleMessage, Shard.startHeatbeat, Shard.resume,
      Shard.identify, Shard.send]
    split
    · split <;> rfl
    · rfl
  | heatbeat d => rfl
  | heatbeatACK => rfl
  | reconnect => rfl
  | invalidSession d =>
    simp only [Shard.handleMessage, Shard.close]
    split <;> rfl
  | other op => rfl

/-- `#handleMessage` stores a dispatch frame's sequence into `#seq`,
whatever the event name. -/
theorem handleMessage_seq_of_dispatch (opts : ShardOptions) (st : Shard)
    (now : Int) (t : String) (s : Int) (d : DispatchPayload) :
    (st.handleMessage opts now (.dispatch t s d)).1.seq = some s := by
  simp [Shard.handleMessage]

/-- Processing frames none of which is dispatch-class leaves `#seq`
unchanged. -/
theorem processMessages_seq_of_none (opts : ShardOptions) (now : Int)
    (msgs : List GatewayMessage) (h : lastDispatchSeq msgs = none) (st : Shard) :
    (Shard.processMessages opts now st msgs).seq = st.seq := by
  induction msgs generalizing st with
  | nil => rfl
  | cons m ms ih =>
    have hms : lastDispatchSeq ms = none := by
      cases hl : lastDispatchSeq ms with
      | none => rfl
      | some s => simp [lastDispatchSeq, hl] at h
    have hm : isDispatch m = false := by
      cases m with
      | dispatch t s d => simp [lastDispatchSeq, hms] at h
      | heatbeat d => rfl
      | heatbeatACK => rfl
      | reconnect => rfl
      | invalidSession d => rfl
      | hello i => rfl
      | other op => rfl
    rw [Shard.processMessages, ih hms,
      handleMessage_seq_of_not_dispatch opts st now m hm]

/-- C4: every dispatch frame's sequence is stored after the internal
handling and before the frame is forwarded (the forward call is the last
effect and the returned state already carries the new sequence), so after
processing any frame list whose last dispatch frame has sequence `s`, the
stored sequence is `s`. -/
theorem C4_dispatch_sequence_tracking (opts : ShardOptions) (now : Int)
    (st : Shard) (msgs : List GatewayMessage) (s : Int)
    (h : lastDispatchSeq msgs = some s) :
    (Shard.processMessages opts now st msgs).seq = some s ∧
      ∀ t sq d, (st.handleMessage opts now (.dispatch t sq d)).1.seq = some sq ∧
        ((st.handleMessage opts now (.dispatch t sq d)).2).getLast? =
          some (Output.forward (.dispatch t sq d)) := by
  constructor
  · induction msgs generalizing st with
    | nil => simp [lastDispatchSeq] at h
    | cons m ms ih =>
      cases hl : lastDispatchSeq ms with
      | some s' =>
        have hss : s' = s := by simp [lastDispatchSeq, hl] at h; exact h
        subst hss
        rw [Shard.processMessages]
        exact ih _ hl
      | none =>
        cases m with
        | dispatch t sq d =>
          have hs : sq = s := by simp [lastDispatchSeq, hl] at h; exact h
          subst hs
          rw [Shard.processMessages, processMessages_seq_of_none opts now ms hl,
            handleMessage_seq_of_dispatch]
        | heatbeat d => simp [lastDispatchSeq, hl] at h
        | heatbeatACK => simp [lastDispatchSeq, hl] at h
        | reconnect => simp [lastDispatchSeq, hl] at h
        | invalidSession d => simp [lastDispatchSeq, hl] at h
        | hello i => simp [lastDispatchSeq, hl] at h
        | other op => simp [lastDispatchSeq, hl] at h
  · intro t sq d
    refine ⟨handleMessage_seq_of_dispatch opts st now t sq d, ?_⟩
    show ((st.handleMessage opts now (.dispatch t sq d)).2).getLast? = _
    simp only [Shard.handleMessage]
    exact List.getLast?_concat _

/-- C4 witness: two dispatch frames with sequences 5 and 9 around an
internally handled heartbeat-request frame. -/
theorem C4_witness :
    lastDispatchSeq msgsSeq = some 9 ∧
      ((Shard.processMessages opts0 0 Shard.initial msgsSeq).seq = some 9 ∧
        ∀ t sq d,
          (Shard.initial.handleMessage opts0 0 (.dispatch t sq d)).1.seq = some sq ∧
          ((Shard.initial.handleMessage opts0 0 (.dispatch t sq d)).2).getLast? =
            some (Output.forward (.dispatch t sq d))) :=
  ⟨by decide, C4_dispatch_sequence_tracking opts0 0 Shard.initial msgsSeq 9 (by decide)⟩

/-- C5 counterexample: the stored sequence is overwritten unconditionally,
so a dispatch frame with a smaller sequence makes it decrease: after
sequences 5 then 3 the stored value went from `some 5` down to `some 3`. -/
theorem C5_counterexample :
    (Shard.processMessages opts0 0 Shard.initial [.dispatch "A" 5 dp0]).seq = some 5 ∧
      (Shard.processMessages opts0 0 Shard.initial
        [.dispatch "A" 5 dp0, .dispatch "B" 3 dp0]).seq = some 3 ∧
      (3 : Int) < 5 := by
  refine ⟨by decide, by decide, by decide⟩

/-- C5 (amended): processing any frame never resets the stored sequence
from `some` back to `none` (no handler clears it, identify included), and
the stored value does not decrease provided each inbound dispatch sequence
is at least the currently stored one — the code itself never enforces
that ordering. -/
theorem C5_amended_seq_monotone (opts : ShardOptions) (st : Shard) (now : Int)
    (msg : GatewayMessage) (a : Int) (ha : st.seq = some a)
    (hmono : ∀ t s d, msg = .dispatch t s d → a ≤ s) :
    ∃ b, (st.handleMessage opts now msg).1.seq = some b ∧ a ≤ b := by
  cases hm : isDispatch msg with
  | false =>
    exact ⟨a, by rw [handleMessage_seq_of_not_dispatch opts st now msg hm, ha], le_refl a⟩
  | true =>
    cases msg with
    | dispatch t s d =>
      exact ⟨s, handleMessage_seq_of_dispatch opts st now t s d, hmono t s d rfl⟩
    | heatbeat d => simp [isDispatch] at hm
    | heatbeatACK => simp [isDispatch] at hm
    | reconnect => simp [isDispatch] at hm
    | invalidSession d => simp [isDispatch] at hm
    | hello i => simp [isDispatch] at hm
    | other op => simp [isDispatch] at hm

/-- C5 witness: a shard holding sequence 7 receiving a dispatch frame with
sequence 9. -/
theorem C5_witness :
    stFullSession.seq = some 7 ∧
      ∃ b, (stFullSession.handleMessage opts0 0 (.dispatch "E" 9 dp0)).1.seq = some b ∧
        (7 : Int) ≤ b :=
  ⟨by decide,
    C5_amended_seq_monotone opts0 stFullSession 0 (.dispatch "E" 9 dp0) 7 (by decide)
      (by intro t s d hmsg; cases hmsg; decide)⟩

/-- C3 counterexample: a shard whose stored session id and sequence are
both present (`some "sess"` and `some 0`) receives "hello" while
`Resuming`, yet `#resume`'s JavaScript falsiness test `!this.#seq` treats
the stored `0` as missing: no resume frame is sent and an identify frame is
sent instead — refuting "resume is sent iff both are present". -/
theorem C3_counterexample :
    stSeqZero.state = .Resuming ∧ stSeqZero.session = some "sess" ∧
      stSeqZero.seq = some 0 ∧
      sentResume (stSeqZero.handleMessage opts0 0 (.hello 41250)).2 = false ∧
      sentIdentify (stSeqZero.handleMessage opts0 0 (.hello 41250)).2 = true := by
  refine ⟨rfl, rfl, rfl, by decide, by decide⟩

/-- C3 (amended): on "hello" while `Resuming`, a resume frame is sent iff
the stored sequence is present and non-zero and the stored session id is
present and non-empty (JavaScript truthiness); otherwise — and always when
not `Resuming` — an identify frame is sent instead. -/
theorem C3_amended_resume_iff_truthy (opts : ShardOptions) (st : Shard)
    (i : Nat) (now : Int) (hs : st.socket = true) :
    (sentResume (st.handleMessage opts now (.hello i)).2 = true ↔
        st.state = .Resuming ∧ truthyNum st.seq = true ∧ truthyStr st.session = true) ∧
      (sentIdentify (st.handleMessage opts now (.hello i)).2 = true ↔
        ¬(st.state = .Resuming ∧ truthyNum st.seq = true ∧ truthyStr st.session = true)) := by
  by_cases h1 : st.state = .Resuming <;>
    by_cases h2 : truthyNum st.seq = true <;>
      by_cases h3 : truthyStr st.session = true <;>
        simp [Shard.handleMessage, Shard.startHeatbeat, Shard.resume, Shard.identify,
          Shard.send, hs, sentResume, sentIdentify, identifyPayload, h1, h2, h3]

/-- C3 witness: the amended rule on a `Resuming` shard whose sequence is
the falsy `0`. -/
theorem C3_amended_witness :
    stSeqZero.socket = true ∧
      ((sentResume (stSeqZero.handleMessage opts0 7 (.hello 41250)).2 = true ↔
          stSeqZero.state = .Resuming ∧ truthyNum stSeqZero.seq = true ∧
            truthyStr stSeqZero.session = true) ∧
        (sentIdentify (stSeqZero.handleMessage opts0 7 (.hello 41250)).2 = true ↔
          ¬(stSeqZero.state = .Resuming ∧ truthyNum stSeqZero.seq = true ∧
            truthyStr stSeqZero.session = true))) :=
  ⟨rfl, C3_amended_resume_iff_truthy opts0 stSeqZero 41250 7 rfl⟩

/-- C6 counterexample: a fresh identify (hello handled while not
`Resuming`) sends the identify frame but clears nothing: the stored
session id, resume URL and sequence survive untouched — refuting "all
cleared whenever a fresh identify occurs". -/
theorem C6_counterexample :
    sentIdentify (stFullSession.handleMessage opts0 0 (.hello 100)).2 = true ∧
      (stFullSession.handleMessage opts0 0 (.hello 100)).1.session = some "x" ∧
      (stFullSession.handleMessage opts0 0 (.hello 100)).1.resumeUrl = some "u" ∧
      (stFullSession.handleMessage opts0 0 (.hello 100)).1.seq = some 7 := by
  refine ⟨by decide, by decide, by decide, by decide⟩

/-- C6 (amended): processing a "READY" dispatch frame stores its
`session_id` and `resume_gateway_url` and sets the state to `Connected`
regardless of the prior state; a fresh identify, however, only sends the
identify frame and clears none of the stored sessionId, resumeUrl or
sequence. -/
theorem C6_amended_ready_stores_session (opts : ShardOptions) (st : Shard)
    (now : Int) (s : Int) (d : DispatchPayload) :
    ((st.handleMessage opts now (.dispatch "READY" s d)).1.session = some d.session_id ∧
      (st.handleMessage opts now (.dispatch "READY" s d)).1.resumeUrl =
        some d.resume_gateway_url ∧
      (st.handleMessage opts now (.dispatch "READY" s d)).1.state = .Connected) ∧
      (st.identify opts).1 = st := by
  constructor
  · refine ⟨?_, ?_, ?_⟩ <;> simp [Shard.handleMessage]
  · rfl

/-- C9 counterexample: a reachable execution (connect, hello, first-beat
timer) leaves one heartbeat outstanding (`ack = false`); a server-sent
heartbeat request then makes the handler send a second heartbeat at once,
without the prior acknowledgement state having been evaluated or resolved —
refuting "at most one outstanding heartbeat expectation". -/
theorem C9_counterexample :
    stOutstanding.heatbeat.ack = false ∧
      sentHeatbeat (stOutstanding.step opts0 (.recv 2 (.heatbeat none))).2 = true ∧
      (stOutstanding.step opts0 (.recv 2 (.heatbeat none))).1.heatbeat.ack = false := by
  refine ⟨by decide, by decide, by decide⟩

/-- C9 (amended): the recurring heartbeat timer never sends a new heartbeat
before evaluating the prior acknowledgement state — a tick emits a
heartbeat frame only when the previous one was acknowledged; the first-beat
timer and the server-sent heartbeat-request handler, by contrast, send
without consulting it. -/
theorem C9_amended_tick_requires_ack (st : Shard) (now : Int)
    (h : sentHeatbeat (st.recurringTick now).2 = true) :
    st.heatbeat.ack = true := by
  cases hb : st.heatbeat.ack with
  | true => rfl
  | false =>
    by_cases hsock : st.socket = true <;>
      simp [Shard.recurringTick, hb, Shard.close, sentHeatbeat, hsock] at h

/-- C9 witness: a tick on an acknowledged live shard does send, and its
prior acknowledgement state was indeed `true`. -/
theorem C9_witness :
    sentHeatbeat (stAcked.recurringTick 5).2 = true ∧ stAcked.heatbeat.ack = true :=
  ⟨by decide, C9_amended_tick_requires_ack stAcked 5 (by decide)⟩

/-- C10: every identify frame and every resume frame produced by the
message handler carries `token = "Bot " ++ options.token`, never the
configured token verbatim. -/
theorem C10_token_bot_form (opts : ShardOptions) (st : Shard) (now : Int)
    (msg : GatewayMessage) :
    (∀ t os br dev i n ints,
        Output.send (.identify t os br dev i n ints) ∈ (st.handleMessage opts now msg).2 →
          t = "Bot " ++ opts.token) ∧
      (∀ t sess sq,
        Output.send (.resume t sess sq) ∈ (st.handleMessage opts now msg).2 →
          t = "Bot " ++ opts.token) := by
  constructor
  · intro t os br dev i n ints hmem
    cases msg <;>
      simp [Shard.handleMessage, Shard.identify, Shard.resume, Shard.send,
        Shard.close, Shard.startHeatbeat, identifyPayload] at hmem <;>
      aesop
  · intro t sess sq hmem
    cases msg <;>
      simp [Shard.handleMessage, Shard.identify, Shard.resume, Shard.send,
        Shard.close, Shard.startHeatbeat, identifyPayload] at hmem <;>
      aesop

/-- C10 witness: the identify frame sent on hello by a live shard with
the fixture configuration carries token `"Bot tok0"`. -/
theorem C10_witness :
    ("Bot tok0" : String) = "Bot " ++ opts0.token :=
  (C10_token_bot_form opts0 stFullSession 0 (.hello 100)).1
    "Bot tok0" "linux" "cordfish" "cordfish" 0 1 513 (by decide)

end Cordfish
